import Mathlib

/-!
Verification of the AdminLTE-style sidebar controller in
`src/assets/js/adminlte.js`.

The script manipulates DOM state only through CSS-class flags:
`sidebar-collapse` on the document body, `sidebar-open` on the element
with id `main-sidebar`, and `menu-open` on the parent of a clicked
navigation link.  We embed the DOM shallowly: a class list is a list of
strings with the `classList.contains` / `classList.remove` /
`classList.toggle` operations; element lookups that may return `null`
(`getElementById`, `querySelector`) become `Option`; a dereference of a
`null` lookup becomes an `Except.error` fault.
-/

/-- `classList.contains c`: membership test on a class list. -/
def classContains (l : List String) (c : String) : Bool :=
  l.contains c

/-- `classList.remove c`: removes every occurrence of `c`. -/
def classRemove (l : List String) (c : String) : List String :=
  l.filter (fun x => x ≠ c)

/-- `classList.toggle c`: removes `c` when present, appends it otherwise. -/
def classToggle (l : List String) (c : String) : List String :=
  if classContains l c then classRemove l c else l ++ [c]

/-- An element as far as the script observes it: its class list.
Used for the element `getElementById('main-sidebar')` returns. -/
structure SideElem where
  classes : List String
deriving Repr, DecidableEq

/-- The DOM state the script in `adminlte.js` reads and writes:
the body's class list, the (possibly absent) `main-sidebar` element,
whether `querySelector('.sidebar-toggle')` finds an element, and the
class lists of the submenu parent containers. -/
structure Dom where
  bodyClasses : List String
  sidebar : Option SideElem
  toggleElemExists : Bool
  menus : List (List String)
deriving Repr, DecidableEq

/-- A runtime fault: dereferencing a `null` element lookup. -/
inductive Fault where
  | nullDeref
deriving Repr, DecidableEq

/-- A click event as the document-wide listener observes it: whether
`sidebar.contains(event.target)` and `sidebarToggle.contains(event.target)`
hold. -/
structure ClickEvent where
  targetInSidebar : Bool
  targetInToggle : Bool
deriving Repr, DecidableEq

/-- An event as `toggleTreeview` observes it (`event.preventDefault()`). -/
structure NavEvent where
  defaultPrevented : Bool
deriving Repr, DecidableEq

/-- A navigation-link element: `element.parentElement` is either `null`
or a reference (index) into `Dom.menus`. -/
structure NavLink where
  parentElement : Option Nat
deriving Repr, DecidableEq

/-- `toggleSidebar()` from `adminlte.js`: looks up the body and the
`main-sidebar` element; if `window.innerWidth > 991` toggles
`sidebar-collapse` on the body, else toggles `sidebar-open` on the
sidebar (faulting when that lookup was `null`). -/
def toggleSidebar (w : Nat) (d : Dom) : Except Fault Dom :=
  if w > 991 then
    Except.ok { d with bodyClasses := classToggle d.bodyClasses "sidebar-collapse" }
  else
    match d.sidebar with
    | none => Except.error Fault.nullDeref
    | some sb =>
        Except.ok { d with sidebar := some ⟨classToggle sb.classes "sidebar-open"⟩ }

/-- `toggleTreeview(element, event)` from `adminlte.js`: calls
`event.preventDefault()`, then toggles `menu-open` on
`element.parentElement` (faulting when the parent is `null`).
Returns the new DOM together with the event after prevention. -/
def toggleTreeview (el : NavLink) (ev : NavEvent) (d : Dom) :
    Except Fault (Dom × NavEvent) :=
  let ev2 : NavEvent := { ev with defaultPrevented := true }
  match el.parentElement with
  | none => Except.error Fault.nullDeref
  | some i =>
      Except.ok
        ({ d with menus := d.menus.set i (classToggle (d.menus.getD i []) "menu-open") },
         ev2)

/-- `handleResize()` from `adminlte.js`: looks up `main-sidebar`; when
`window.innerWidth > 991` removes `sidebar-open` from it (faulting when
the lookup was `null`); otherwise does nothing. -/
def handleResize (w : Nat) (d : Dom) : Except Fault Dom :=
  if w > 991 then
    match d.sidebar with
    | none => Except.error Fault.nullDeref
    | some sb =>
        Except.ok { d with sidebar := some ⟨classRemove sb.classes "sidebar-open"⟩ }
  else
    Except.ok d

/-- The document-wide click listener registered on `DOMContentLoaded`:
with JavaScript's short-circuit `&&`, it tests `window.innerWidth <= 991`,
then `sidebar.classList.contains('sidebar-open')` (dereferencing the
sidebar lookup), then `!sidebar.contains(event.target)`, then
`!sidebarToggle.contains(event.target)` (dereferencing the toggle
lookup); when all hold it removes `sidebar-open` from the sidebar. -/
def documentClickHandler (w : Nat) (ev : ClickEvent) (d : Dom) : Except Fault Dom :=
  if w ≤ 991 then
    match d.sidebar with
    | none => Except.error Fault.nullDeref
    | some sb =>
        if classContains sb.classes "sidebar-open" then
          if ev.targetInSidebar then
            Except.ok d
          else
            if d.toggleElemExists then
              if ev.targetInToggle then
                Except.ok d
              else
                Except.ok { d with sidebar := some ⟨classRemove sb.classes "sidebar-open"⟩ }
            else
              Except.error Fault.nullDeref
        else
          Except.ok d
  else
    Except.ok d

/-- Observation: does the body carry `sidebar-collapse`? -/
def bodyCollapseFlag (d : Dom) : Bool :=
  classContains d.bodyClasses "sidebar-collapse"

/-- Observation: does the sidebar element carry `sidebar-open`?
(`false` when the element is absent.) -/
def sidebarOpenFlag (d : Dom) : Bool :=
  match d.sidebar with
  | none => false
  | some sb => classContains sb.classes "sidebar-open"

/-- Observation: does submenu parent `i` carry `menu-open`? -/
def menuOpenFlag (d : Dom) (i : Nat) : Bool :=
  classContains (d.menus.getD i []) "menu-open"

theorem classContains_eq_decide (l : List String) (c : String) :
    classContains l c = decide (c ∈ l) := by
  simp [classContains]

theorem classContains_iff_mem (l : List String) (c : String) :
    classContains l c = true ↔ c ∈ l := by
  simp [classContains]

theorem classContains_classRemove_self (l : List String) (c : String) :
    classContains (classRemove l c) c = false := by
  simp [classContains_eq_decide, classRemove]

theorem classContains_classRemove_ne (l : List String) (c c' : String)
    (h : c' ≠ c) : classContains (classRemove l c) c' = classContains l c' := by
  simp only [classContains_eq_decide, classRemove, List.mem_filter, ne_eq,
    decide_eq_true_eq]
  by_cases hm : c' ∈ l <;> simp [hm, h]

theorem classContains_classToggle_self (l : List String) (c : String) :
    classContains (classToggle l c) c = !classContains l c := by
  unfold classToggle
  by_cases h : classContains l c = true
  · simp [h, classContains_classRemove_self]
  · simp only [Bool.not_eq_true] at h
    rw [h]
    simp only [Bool.false_eq_true, if_neg, not_false_iff, Bool.not_false]
    simp [classContains_eq_decide]

theorem classContains_classToggle_ne (l : List String) (c c' : String)
    (h : c' ≠ c) : classContains (classToggle l c) c' = classContains l c' := by
  unfold classToggle
  by_cases hc : classContains l c = true
  · simp [hc, classContains_classRemove_ne l c c' h]
  · simp only [Bool.not_eq_true] at hc
    rw [hc]
    simp only [Bool.false_eq_true, if_neg, not_false_iff]
    simp [classContains_eq_decide, h]

theorem classRemove_of_not_mem (l : List String) (c : String)
    (h : classContains l c = false) : classRemove l c = l := by
  rw [classContains_eq_decide, decide_eq_false_iff_not] at h
  simp only [classRemove]
  exact List.filter_eq_self.mpr (by intro a ha; simp; rintro rfl; exact h ha)

/-- Concrete DOM: empty body, sidebar present with no classes, toggle
control present, one submenu parent with no classes. -/
def dEmpty : Dom := ⟨[], some ⟨[]⟩, true, [[]]⟩

/-- Concrete DOM: sidebar present and carrying `sidebar-open`. -/
def dOpen : Dom := ⟨[], some ⟨["sidebar-open"]⟩, true, [[]]⟩

/-- Concrete DOM: no `main-sidebar` element in the document. -/
def dNoSidebar : Dom := ⟨[], none, true, []⟩

/-- C1: `toggleSidebar()` flips `sidebar-collapse` on the body when the
window is wider than 991, and flips `sidebar-open` on the `main-sidebar`
element when the width is at most 991. -/
theorem c1_toggleSidebar_flips (w : Nat) (d : Dom) (sb : SideElem)
    (h : d.sidebar = some sb) :
    (991 < w →
      toggleSidebar w d =
        Except.ok { d with bodyClasses := classToggle d.bodyClasses "sidebar-collapse" } ∧
      ∀ d2, toggleSidebar w d = Except.ok d2 →
        bodyCollapseFlag d2 = !bodyCollapseFlag d ∧ d2.sidebar = d.sidebar) ∧
    (w ≤ 991 →
      toggleSidebar w d =
        Except.ok { d with sidebar := some ⟨classToggle sb.classes "sidebar-open"⟩ } ∧
      ∀ d2, toggleSidebar w d = Except.ok d2 →
        sidebarOpenFlag d2 = !sidebarOpenFlag d ∧ d2.bodyClasses = d.bodyClasses) := by
  constructor
  · intro hw
    have he : toggleSidebar w d =
        Except.ok { d with bodyClasses := classToggle d.bodyClasses "sidebar-collapse" } := by
      simp [toggleSidebar, hw]
    refine ⟨he, fun d2 h2 => ?_⟩
    rw [he] at h2
    simp only [Except.ok.injEq] at h2
    subst h2
    exact ⟨by simp [bodyCollapseFlag, classContains_classToggle_self], rfl⟩
  · intro hw
    have hw' : ¬ (991 < w) := by omega
    have he : toggleSidebar w d =
        Except.ok { d with sidebar := some ⟨classToggle sb.classes "sidebar-open"⟩ } := by
      simp [toggleSidebar, hw', h]
    refine ⟨he, fun d2 h2 => ?_⟩
    rw [he] at h2
    simp only [Except.ok.injEq] at h2
    subst h2
    exact ⟨by simp [sidebarOpenFlag, h, classContains_classToggle_self], rfl⟩

/-- Witness for C1: at width 1200 over `dEmpty`, one call adds
`sidebar-collapse` to the body. -/
theorem c1_toggleSidebar_flips_witness :
    toggleSidebar 1200 dEmpty =
      Except.ok { dEmpty with bodyClasses := classToggle dEmpty.bodyClasses "sidebar-collapse" } :=
  ((c1_toggleSidebar_flips 1200 dEmpty ⟨[]⟩ rfl).1 (by decide)).1

/-- C7: a `toggleSidebar()` call made at width at most 991 leaves the
body's class list, hence its `sidebar-collapse` flag, unchanged. -/
theorem c7_mobile_toggle_preserves_body (w : Nat) (d : Dom) (h : w ≤ 991) :
    ∀ d2, toggleSidebar w d = Except.ok d2 → d2.bodyClasses = d.bodyClasses := by
  intro d2 h2
  have hw : ¬ (991 < w) := by omega
  unfold toggleSidebar at h2
  rw [if_neg hw] at h2
  cases hs : d.sidebar with
  | none => rw [hs] at h2; exact absurd h2 (by simp)
  | some sb =>
      rw [hs] at h2
      simp only [Except.ok.injEq] at h2
      subst h2
      rfl

/-- Witness for C7: at width 500 over `dEmpty`, the call yields a state
with the same (empty) body class list. -/
theorem c7_mobile_toggle_preserves_body_witness :
    (Dom.mk [] (some ⟨["sidebar-open"]⟩) true [[]]).bodyClasses = dEmpty.bodyClasses :=
  c7_mobile_toggle_preserves_body 500 dEmpty (by decide) _ rfl

/-- C9: with no `main-sidebar` element and width above 991,
`toggleSidebar()` completes without fault and flips `sidebar-collapse` on
the body: the `null` lookup is dereferenced only in the untaken mobile
branch. -/
theorem c9_no_sidebar_desktop_safe (w : Nat) (d : Dom) (hn : d.sidebar = none)
    (hw : 991 < w) :
    toggleSidebar w d =
      Except.ok { d with bodyClasses := classToggle d.bodyClasses "sidebar-collapse" } ∧
    ∀ d2, toggleSidebar w d = Except.ok d2 →
      bodyCollapseFlag d2 = !bodyCollapseFlag d ∧ d2.sidebar = none := by
  have he : toggleSidebar w d =
      Except.ok { d with bodyClasses := classToggle d.bodyClasses "sidebar-collapse" } := by
    simp [toggleSidebar, hw]
  refine ⟨he, fun d2 h2 => ?_⟩
  rw [he] at h2
  simp only [Except.ok.injEq] at h2
  subst h2
  exact ⟨by simp [bodyCollapseFlag, classContains_classToggle_self], hn⟩

/-- Witness for C9: at width 1200 over `dNoSidebar`, the call succeeds
and adds `sidebar-collapse`. -/
theorem c9_no_sidebar_desktop_safe_witness :
    toggleSidebar 1200 dNoSidebar =
      Except.ok { dNoSidebar with bodyClasses := classToggle dNoSidebar.bodyClasses "sidebar-collapse" } :=
  (c9_no_sidebar_desktop_safe 1200 dNoSidebar rfl (by decide)).1

/-- C2: given both element lookups succeed, the document click handler
removes `sidebar-open` exactly when width ≤ 991, the sidebar carries
`sidebar-open`, and the target lies outside both the sidebar and the
`.sidebar-toggle` element; in every other case it returns the state
unchanged, so no other class changes. -/
theorem c2_click_removes_iff (w : Nat) (ev : ClickEvent) (d : Dom) (sb : SideElem)
    (h : d.sidebar = some sb) (ht : d.toggleElemExists = true) :
    (w ≤ 991 ∧ classContains sb.classes "sidebar-open" = true ∧
        ev.targetInSidebar = false ∧ ev.targetInToggle = false →
      documentClickHandler w ev d =
        Except.ok { d with sidebar := some ⟨classRemove sb.classes "sidebar-open"⟩ }) ∧
    (¬ (w ≤ 991 ∧ classContains sb.classes "sidebar-open" = true ∧
        ev.targetInSidebar = false ∧ ev.targetInToggle = false) →
      documentClickHandler w ev d = Except.ok d) := by
  constructor
  · rintro ⟨hw, hc, hs, htg⟩
    simp [documentClickHandler, hw, h, hc, hs, htg, ht]
  · intro hn
    by_cases hw : w ≤ 991
    · by_cases hc : classContains sb.classes "sidebar-open" = true
      · by_cases hs : ev.targetInSidebar = true
        · simp [documentClickHandler, hw, h, hc, hs]
        · by_cases htg : ev.targetInToggle = true
          · simp only [Bool.not_eq_true] at hs
            simp [documentClickHandler, hw, h, hc, hs, ht, htg]
          · simp only [Bool.not_eq_true] at hs htg
            exact absurd ⟨hw, hc, hs, htg⟩ hn
      · simp only [Bool.not_eq_true] at hc
        simp [documentClickHandler, hw, h, hc]
    · simp [documentClickHandler, hw]

/-- Witness for C2: at width 500 over `dOpen` with an outside click, the
handler removes `sidebar-open`. -/
theorem c2_click_removes_iff_witness :
    documentClickHandler 500 ⟨false, false⟩ dOpen =
      Except.ok { dOpen with sidebar := some ⟨classRemove ["sidebar-open"] "sidebar-open"⟩ } :=
  (c2_click_removes_iff 500 ⟨false, false⟩ dOpen ⟨["sidebar-open"]⟩ rfl rfl).1
    ⟨by decide, by decide, rfl, rfl⟩

/-- C3: `handleResize()` at width above 991 removes `sidebar-open` from
the sidebar and leaves the body (hence `sidebar-collapse`) alone; at
width at most 991 it changes nothing, so re-entering the mobile range
never re-adds `sidebar-open`. -/
theorem c3_handleResize (w : Nat) (d : Dom) (sb : SideElem)
    (h : d.sidebar = some sb) :
    (991 < w →
      handleResize w d =
        Except.ok { d with sidebar := some ⟨classRemove sb.classes "sidebar-open"⟩ } ∧
      ∀ d2, handleResize w d = Except.ok d2 →
        sidebarOpenFlag d2 = false ∧ d2.bodyClasses = d.bodyClasses ∧
        bodyCollapseFlag d2 = bodyCollapseFlag d) ∧
    (w ≤ 991 → handleResize w d = Except.ok d) := by
  constructor
  · intro hw
    have he : handleResize w d =
        Except.ok { d with sidebar := some ⟨classRemove sb.classes "sidebar-open"⟩ } := by
      simp [handleResize, hw, h]
    refine ⟨he, fun d2 h2 => ?_⟩
    rw [he] at h2
    simp only [Except.ok.injEq] at h2
    subst h2
    refine ⟨?_, rfl, rfl⟩
    simp [sidebarOpenFlag, classContains_classRemove_self]
  · intro hw
    have hw' : ¬ (991 < w) := by omega
    simp [handleResize, hw']

/-- Witness for C3: at width 1200 over `dOpen`, `handleResize` removes
`sidebar-open`; at width 500 it is the identity. -/
theorem c3_handleResize_witness :
    handleResize 500 dOpen = Except.ok dOpen :=
  (c3_handleResize 500 dOpen ⟨["sidebar-open"]⟩ rfl).2 (by decide)

/-- C4: at width above 991 the document click handler returns the state
unchanged without reaching any element dereference, whatever the lookups
returned, so an absent `sidebar-open` flag stays absent and no fault
occurs. -/
theorem c4_desktop_click_no_fault (w : Nat) (ev : ClickEvent) (d : Dom)
    (hw : 991 < w) :
    documentClickHandler w ev d = Except.ok d ∧
    (sidebarOpenFlag d = false →
      ∀ d2, documentClickHandler w ev d = Except.ok d2 → sidebarOpenFlag d2 = false) := by
  have he : documentClickHandler w ev d = Except.ok d := by
    have hw' : ¬ (w ≤ 991) := by omega
    simp [documentClickHandler, hw']
  refine ⟨he, fun hso d2 h2 => ?_⟩
  rw [he] at h2
  simp only [Except.ok.injEq] at h2
  subst h2
  exact hso

/-- Witness for C4: at width 1200, even with no sidebar element in the
document, the handler completes and changes nothing. -/
theorem c4_desktop_click_no_fault_witness :
    documentClickHandler 1200 ⟨false, false⟩ dNoSidebar = Except.ok dNoSidebar :=
  (c4_desktop_click_no_fault 1200 ⟨false, false⟩ dNoSidebar (by decide)).1

/-- C5: the 991 boundary is mobile-inclusive: at width exactly 991,
`toggleSidebar()` toggles `sidebar-open` on the sidebar (leaving the
body alone), `handleResize()` changes nothing, and an outside click with
`sidebar-open` set triggers the handler's removal. -/
theorem c5_boundary_991 (d : Dom) (sb : SideElem) (ev : ClickEvent)
    (h : d.sidebar = some sb) (ht : d.toggleElemExists = true)
    (hc : classContains sb.classes "sidebar-open" = true)
    (hs : ev.targetInSidebar = false) (htg : ev.targetInToggle = false) :
    toggleSidebar 991 d =
      Except.ok { d with sidebar := some ⟨classToggle sb.classes "sidebar-open"⟩ } ∧
    handleResize 991 d = Except.ok d ∧
    documentClickHandler 991 ev d =
      Except.ok { d with sidebar := some ⟨classRemove sb.classes "sidebar-open"⟩ } := by
  refine ⟨?_, ?_, ?_⟩
  · simp [toggleSidebar, h]
  · simp [handleResize]
  · simp [documentClickHandler, h, ht, hc, hs, htg]

/-- Witness for C5: at width exactly 991 over `dOpen`, the outside-click
handler removes `sidebar-open`. -/
theorem c5_boundary_991_witness :
    documentClickHandler 991 ⟨false, false⟩ dOpen =
      Except.ok { dOpen with sidebar := some ⟨classRemove ["sidebar-open"] "sidebar-open"⟩ } :=
  (c5_boundary_991 dOpen ⟨["sidebar-open"]⟩ ⟨false, false⟩ rfl rfl (by decide) rfl rfl).2.2

theorem getD_set_self {α : Type} (l : List α) (i : Nat) (x d : α) (h : i < l.length) :
    (l.set i x).getD i d = x := by
  induction l generalizing i with
  | nil => simp at h
  | cons a t ih =>
      cases i with
      | zero => rfl
      | succ n =>
          simpa [List.getD] using ih n (by simpa using h)

theorem getD_set_ne {α : Type} (l : List α) (i j : Nat) (x d : α) (h : j ≠ i) :
    (l.set i x).getD j d = l.getD j d := by
  induction l generalizing i j with
  | nil => rfl
  | cons a t ih =>
      cases i with
      | zero =>
          cases j with
          | zero => exact absurd rfl h
          | succ m => rfl
      | succ n =>
          cases j with
          | zero => rfl
          | succ m =>
              simpa [List.getD] using ih n m (fun hh => h (by rw [hh]))

/-- C6: `toggleTreeview(element, event)` on an element whose parent
exists prevents the event's default action and flips `menu-open` on that
parent, leaving every other submenu parent, the body and the sidebar
untouched. -/
theorem c6_toggleTreeview_flips (d : Dom) (el : NavLink) (ev : NavEvent) (i : Nat)
    (hp : el.parentElement = some i) (hi : i < d.menus.length) :
    toggleTreeview el ev d =
      Except.ok
        ({ d with menus := d.menus.set i (classToggle (d.menus.getD i []) "menu-open") },
         ⟨true⟩) ∧
    ∀ d2 ev2, toggleTreeview el ev d = Except.ok (d2, ev2) →
      ev2.defaultPrevented = true ∧
      menuOpenFlag d2 i = !menuOpenFlag d i ∧
      (∀ j, j ≠ i → d2.menus.getD j [] = d.menus.getD j []) ∧
      d2.bodyClasses = d.bodyClasses ∧ d2.sidebar = d.sidebar := by
  have he : toggleTreeview el ev d =
      Except.ok
        ({ d with menus := d.menus.set i (classToggle (d.menus.getD i []) "menu-open") },
         ⟨true⟩) := by
    simp [toggleTreeview, hp]
  refine ⟨he, fun d2 ev2 h2 => ?_⟩
  rw [he] at h2
  simp only [Except.ok.injEq, Prod.mk.injEq] at h2
  obtain ⟨h2d, h2e⟩ := h2
  subst h2d
  subst h2e
  refine ⟨rfl, ?_, ?_, rfl, rfl⟩
  · simp only [menuOpenFlag]
    rw [getD_set_self _ _ _ _ hi]
    exact classContains_classToggle_self _ _
  · intro j hj
    exact getD_set_ne _ _ _ _ _ hj

/-- Witness for C6: toggling the treeview of the single submenu of
`dEmpty` adds `menu-open` to it and marks the event prevented. -/
theorem c6_toggleTreeview_flips_witness :
    toggleTreeview ⟨some 0⟩ ⟨false⟩ dEmpty =
      Except.ok
        ({ dEmpty with
            menus := dEmpty.menus.set 0 (classToggle (dEmpty.menus.getD 0 []) "menu-open") },
         ⟨true⟩) :=
  (c6_toggleTreeview_flips dEmpty ⟨some 0⟩ ⟨false⟩ 0 rfl (by decide)).1

/-- C8: calling `toggleSidebar()` twice at a fixed width restores both
the body's `sidebar-collapse` flag and the sidebar's `sidebar-open`
flag, and calling `toggleTreeview` twice on the same element restores
the parent's `menu-open` flag. -/
theorem c8_double_toggle_restores (w : Nat) (d : Dom) (sb : SideElem)
    (el : NavLink) (ev : NavEvent) (i : Nat)
    (h : d.sidebar = some sb) (hp : el.parentElement = some i)
    (hi : i < d.menus.length) :
    (∃ d1 d2, toggleSidebar w d = Except.ok d1 ∧ toggleSidebar w d1 = Except.ok d2 ∧
      bodyCollapseFlag d2 = bodyCollapseFlag d ∧
      sidebarOpenFlag d2 = sidebarOpenFlag d) ∧
    (∃ d1 ev1 d2 ev2, toggleTreeview el ev d = Except.ok (d1, ev1) ∧
      toggleTreeview el ev1 d1 = Except.ok (d2, ev2) ∧
      menuOpenFlag d2 i = menuOpenFlag d i) := by
  constructor
  · by_cases hw : 991 < w
    · refine ⟨{ d with bodyClasses := classToggle d.bodyClasses "sidebar-collapse" },
        { d with bodyClasses :=
            classToggle (classToggle d.bodyClasses "sidebar-collapse") "sidebar-collapse" },
        ?_, ?_, ?_, ?_⟩
      · simp [toggleSidebar, hw]
      · simp [toggleSidebar, hw]
      · simp [bodyCollapseFlag, classContains_classToggle_self]
      · simp [sidebarOpenFlag]
    · refine ⟨{ d with sidebar := some (SideElem.mk (classToggle sb.classes "sidebar-open")) },
        { d with sidebar := some (SideElem.mk (classToggle (classToggle sb.classes "sidebar-open") "sidebar-open")) },
        ?_, ?_, ?_, ?_⟩
      · simp [toggleSidebar, hw, h]
      · simp [toggleSidebar, hw]
      · simp [bodyCollapseFlag]
      · simp [sidebarOpenFlag, h, classContains_classToggle_self]
  · refine ⟨{ d with menus := d.menus.set i (classToggle (d.menus.getD i []) "menu-open") },
      ⟨true⟩,
      { d with menus := (d.menus.set i (classToggle (d.menus.getD i []) "menu-open")).set i (classToggle ((d.menus.set i (classToggle (d.menus.getD i []) "menu-open")).getD i []) "menu-open") },
      ⟨true⟩, ?_, ?_, ?_⟩
    · simp [toggleTreeview, hp]
    · simp [toggleTreeview, hp]
    · have hi1 : i <
          (d.menus.set i (classToggle (d.menus.getD i []) "menu-open")).length := by
        simpa using hi
      simp only [menuOpenFlag]
      rw [getD_set_self _ _ _ _ hi1, getD_set_self _ _ _ _ hi,
        classContains_classToggle_self, classContains_classToggle_self, Bool.not_not]

/-- Witness for C8: at width 1200 over `dEmpty`, two `toggleSidebar`
calls restore both flags. -/
theorem c8_double_toggle_restores_witness :
    ∃ d1 d2, toggleSidebar 1200 dEmpty = Except.ok d1 ∧
      toggleSidebar 1200 d1 = Except.ok d2 ∧
      bodyCollapseFlag d2 = bodyCollapseFlag dEmpty ∧
      sidebarOpenFlag d2 = sidebarOpenFlag dEmpty :=
  (c8_double_toggle_restores 1200 dEmpty ⟨[]⟩ ⟨some 0⟩ ⟨false⟩ 0 rfl rfl (by decide)).1

/-- C10: neither `handleResize()` nor the document click handler ever
adds `sidebar-open`: whenever either completes, the body classes and all
submenu classes are unchanged, and the sidebar is either unchanged or
has exactly `sidebar-open` removed; in particular the `sidebar-open`
flag never goes from absent to present. -/
theorem c10_handlers_never_add (w : Nat) (ev : ClickEvent) (d : Dom) :
    (∀ d2, handleResize w d = Except.ok d2 →
      d2.bodyClasses = d.bodyClasses ∧ d2.menus = d.menus ∧
      (d2.sidebar = d.sidebar ∨
        ∃ sb, d.sidebar = some sb ∧
          d2.sidebar = some ⟨classRemove sb.classes "sidebar-open"⟩) ∧
      (sidebarOpenFlag d2 = true → sidebarOpenFlag d = true)) ∧
    (∀ d2, documentClickHandler w ev d = Except.ok d2 →
      d2.bodyClasses = d.bodyClasses ∧ d2.menus = d.menus ∧
      (d2.sidebar = d.sidebar ∨
        ∃ sb, d.sidebar = some sb ∧
          d2.sidebar = some ⟨classRemove sb.classes "sidebar-open"⟩) ∧
      (sidebarOpenFlag d2 = true → sidebarOpenFlag d = true)) := by
  constructor
  · intro d2 h2
    by_cases hw : w > 991
    · cases hs : d.sidebar with
      | none =>
          have he : handleResize w d = Except.error Fault.nullDeref := by
            simp [handleResize, hw, hs]
          rw [he] at h2
          exact absurd h2 (by simp)
      | some sb =>
          have he : handleResize w d =
              Except.ok { d with sidebar := some ⟨classRemove sb.classes "sidebar-open"⟩ } := by
            simp [handleResize, hw, hs]
          rw [he] at h2
          simp only [Except.ok.injEq] at h2
          subst h2
          refine ⟨rfl, rfl, Or.inr ⟨sb, rfl, rfl⟩, fun hcon => ?_⟩
          simp [sidebarOpenFlag, classContains_classRemove_self] at hcon
    · have he : handleResize w d = Except.ok d := by
        simp [handleResize, hw]
      rw [he] at h2
      simp only [Except.ok.injEq] at h2
      subst h2
      exact ⟨rfl, rfl, Or.inl rfl, fun x => x⟩
  · intro d2 h2
    by_cases hw : w ≤ 991
    · cases hs : d.sidebar with
      | none =>
          have he : documentClickHandler w ev d = Except.error Fault.nullDeref := by
            simp [documentClickHandler, hw, hs]
          rw [he] at h2
          exact absurd h2 (by simp)
      | some sb =>
          by_cases hc : classContains sb.classes "sidebar-open" = true
          · by_cases hts : ev.targetInSidebar = true
            · have he : documentClickHandler w ev d = Except.ok d := by
                simp [documentClickHandler, hw, hs, hc, hts]
              rw [he] at h2
              simp only [Except.ok.injEq] at h2
              subst h2
              exact ⟨rfl, rfl, Or.inl hs, fun x => x⟩
            · by_cases hte : d.toggleElemExists = true
              · by_cases htt : ev.targetInToggle = true
                · have he : documentClickHandler w ev d = Except.ok d := by
                    simp only [Bool.not_eq_true] at hts
                    simp [documentClickHandler, hw, hs, hc, hts, hte, htt]
                  rw [he] at h2
                  simp only [Except.ok.injEq] at h2
                  subst h2
                  exact ⟨rfl, rfl, Or.inl hs, fun x => x⟩
                · have he : documentClickHandler w ev d =
                      Except.ok { d with
                        sidebar := some ⟨classRemove sb.classes "sidebar-open"⟩ } := by
                    simp only [Bool.not_eq_true] at hts htt
                    simp [documentClickHandler, hw, hs, hc, hts, hte, htt]
                  rw [he] at h2
                  simp only [Except.ok.injEq] at h2
                  subst h2
                  refine ⟨rfl, rfl, Or.inr ⟨sb, rfl, rfl⟩, fun hcon => ?_⟩
                  simp [sidebarOpenFlag, classContains_classRemove_self] at hcon
              · have he : documentClickHandler w ev d = Except.error Fault.nullDeref := by
                  simp only [Bool.not_eq_true] at hts hte
                  simp [documentClickHandler, hw, hs, hc, hts, hte]
                rw [he] at h2
                exact absurd h2 (by simp)
          · have he : documentClickHandler w ev d = Except.ok d := by
              simp only [Bool.not_eq_true] at hc
              simp [documentClickHandler, hw, hs, hc]
            rw [he] at h2
            simp only [Except.ok.injEq] at h2
            subst h2
            exact ⟨rfl, rfl, Or.inl hs, fun x => x⟩
    · have he : documentClickHandler w ev d = Except.ok d := by
        simp [documentClickHandler, hw]
      rw [he] at h2
      simp only [Except.ok.injEq] at h2
      subst h2
      exact ⟨rfl, rfl, Or.inl rfl, fun x => x⟩

/-- Witness for C10: resizing `dOpen` to width 1200 leaves its submenu
classes unchanged. -/
theorem c10_handlers_never_add_witness :
    (Dom.mk [] (some ⟨[]⟩) true [[]]).menus = dOpen.menus :=
  ((c10_handlers_never_add 1200 ⟨false, false⟩ dOpen).1
    (Dom.mk [] (some ⟨[]⟩) true [[]]) rfl).2.1
